import Mathlib

/-!
Verification of the apcupsd exporter UPS collector (upscollector.go).

The collector turns one status snapshot fetched from apcupsd into a fixed
list of labeled Prometheus metric samples.  We embed the data model and the
Collect and Describe operations as pure Lean functions: the channel sends of
the Go code become a list of emitted metrics, and the status-source fetch
becomes an explicit argument of type Except String Status.
-/

namespace Apcupsd

/-- Value type of a Prometheus sample: prometheus.GaugeValue or
prometheus.CounterValue. -/
inductive ValueType where
  | gauge
  | counter
deriving DecidableEq, Repr

/-- Model of prometheus.Desc: fully qualified metric name, help text and the
ordered variable label names (as produced by prometheus.NewDesc; constant
labels are always nil in this program). -/
structure Desc where
  fqName : String
  help : String
  variableLabels : List String
deriving DecidableEq, Repr

/-- Model of prometheus.BuildFQName: joins the non-empty parts of
namespace, subsystem and name with underscores; an empty name gives the
empty string. -/
def buildFQName (ns sub name : String) : String :=
  if name = "" then ""
  else (if ns = "" then "" else ns ++ "_") ++ (if sub = "" then "" else sub ++ "_") ++ name

/-- Modelled from the spec: the fixed metric namespace prefix.  The Go
constant named namespace is declared in a repository file outside src/;
the spec only says metric naming follows a fixed namespace prefix, and no
claim depends on its exact value. -/
def namespaceStr : String := "apcupsd"

/-- Model of Go time.Duration: a signed count of nanoseconds. -/
structure Duration where
  ns : Int
deriving DecidableEq, Repr

/-- Model of Go Duration.Seconds: the duration as (exact) seconds. -/
def Duration.Seconds (d : Duration) : ℚ :=
  (d.ns : ℚ) / 1000000000

/-- Model of Go time.Time at second granularity: seconds since January 1 of
year 1 plus a nanosecond part.  The zero value is the zero time. -/
structure GoTime where
  sec : Int
  nsec : Nat
deriving DecidableEq, Repr

/-- Model of Go time.Time.IsZero: the time is the zero value. -/
def GoTime.IsZero (t : GoTime) : Bool :=
  t.sec == 0 && t.nsec == 0

/-- Seconds between year 1 and the Unix epoch, as in the Go time package. -/
def unixToInternal : Int := 62135596800

/-- Model of Go time.Time.Unix: seconds since the Unix epoch. -/
def GoTime.Unix (t : GoTime) : Int :=
  t.sec - unixToInternal

/-- The timestamp helper of upscollector.go: 0 for the zero time, otherwise
the Unix epoch seconds of the time. -/
def timestamp (t : GoTime) : ℚ :=
  if t.IsZero then 0 else (t.Unix : ℚ)

/-- Model of apcupsd.Status: the snapshot fields read by Collect.  Field
names and types follow the accesses in upscollector.go (float64 fields as
exact rationals, counts as integers, durations and times as above). -/
structure Status where
  UPSName : String
  Hostname : String
  Model : String
  Status : String
  LoadPercent : ℚ
  BatteryChargePercent : ℚ
  LineVoltage : ℚ
  NominalInputVoltage : ℚ
  OutputVoltage : ℚ
  BatteryVoltage : ℚ
  NominalBatteryVoltage : ℚ
  NumberTransfers : Int
  TimeLeft : Duration
  TimeOnBattery : Duration
  CumulativeTimeOnBattery : Duration
  XOnBattery : GoTime
  XOffBattery : GoTime
  LastSelftest : GoTime
  NominalPower : Int
  InternalTemp : ℚ
deriving DecidableEq, Repr

/-- One constant metric sample as built by prometheus.MustNewConstMetric:
descriptor, value type, value, and the ordered variable label values. -/
structure Sample where
  desc : Desc
  vtype : ValueType
  value : ℚ
  labelValues : List String
deriving DecidableEq, Repr

/-- A metric sent on the collect channel: either a constant sample or an
invalid metric (prometheus.NewInvalidMetric) carrying a descriptor and the
underlying error text. -/
inductive Metric where
  | sample : Sample → Metric
  | invalid : Desc → String → Metric
deriving DecidableEq, Repr

/-- The UPSCollector struct: one descriptor per exported series.  The Go
struct also holds the status source ss; in this embedding the fetch result
is passed to Collect directly. -/
structure UPSCollector where
  Info : Desc
  UPSLoadPercent : Desc
  BatteryChargePercent : Desc
  LineVolts : Desc
  LineNominalVolts : Desc
  OutputVolts : Desc
  BatteryVolts : Desc
  BatteryNominalVolts : Desc
  BatteryNumberTransfersTotal : Desc
  BatteryTimeLeftSeconds : Desc
  BatteryTimeOnSeconds : Desc
  BatteryCumulativeTimeOnSecondsTotal : Desc
  LastTransferOnBatteryTimeSeconds : Desc
  LastTransferOffBatteryTimeSeconds : Desc
  LastSelftestTimeSeconds : Desc
  NominalPowerWatts : Desc
  Status : Desc
  InternalTemperatureCelsius : Desc
deriving DecidableEq, Repr

/-- NewUPSCollector: builds every descriptor once, with the shared label
tuple and, for the status family, the extra status label. -/
def NewUPSCollector : UPSCollector :=
  let labels : List String := ["ups_name", "hostname", "model"]
  { Info := ⟨buildFQName namespaceStr "" "info",
      "Metadata about a given UPS.",
      ["ups_name", "hostname", "model"]⟩
    Status := ⟨buildFQName namespaceStr "" "status",
      "Current UPS status.",
      ["ups_name", "hostname", "model", "status"]⟩
    UPSLoadPercent := ⟨buildFQName namespaceStr "" "ups_load_percent",
      "Current UPS load percentage.", labels⟩
    BatteryChargePercent := ⟨buildFQName namespaceStr "" "battery_charge_percent",
      "Current UPS battery charge percentage.", labels⟩
    LineVolts := ⟨buildFQName namespaceStr "" "line_volts",
      "Current AC input line voltage.", labels⟩
    LineNominalVolts := ⟨buildFQName namespaceStr "" "line_nominal_volts",
      "Nominal AC input line voltage.", labels⟩
    OutputVolts := ⟨buildFQName namespaceStr "" "output_volts",
      "Current AC output voltage.", labels⟩
    BatteryVolts := ⟨buildFQName namespaceStr "" "battery_volts",
      "Current UPS battery voltage.", labels⟩
    BatteryNominalVolts := ⟨buildFQName namespaceStr "" "battery_nominal_volts",
      "Nominal UPS battery voltage.", labels⟩
    BatteryNumberTransfersTotal := ⟨buildFQName namespaceStr "" "battery_number_transfers_total",
      "Total number of transfers to UPS battery power.", labels⟩
    BatteryTimeLeftSeconds := ⟨buildFQName namespaceStr "" "battery_time_left_seconds",
      "Number of seconds remaining of UPS battery power.", labels⟩
    BatteryTimeOnSeconds := ⟨buildFQName namespaceStr "" "battery_time_on_seconds",
      "Number of seconds the UPS has been providing battery power due to an AC input line outage.", labels⟩
    BatteryCumulativeTimeOnSecondsTotal := ⟨buildFQName namespaceStr "" "battery_cumulative_time_on_seconds_total",
      "Total number of seconds the UPS has provided battery power due to AC input line outages.", labels⟩
    LastTransferOnBatteryTimeSeconds := ⟨buildFQName namespaceStr "" "last_transfer_on_battery_time_seconds",
      "UNIX timestamp of last transfer to battery since apcupsd startup.", labels⟩
    LastTransferOffBatteryTimeSeconds := ⟨buildFQName namespaceStr "" "last_transfer_off_battery_time_seconds",
      "UNIX timestamp of last transfer from battery since apcupsd startup.", labels⟩
    LastSelftestTimeSeconds := ⟨buildFQName namespaceStr "" "last_selftest_time_seconds",
      "UNIX timestamp of last selftest since apcupsd startup.", labels⟩
    NominalPowerWatts := ⟨buildFQName namespaceStr "" "nominal_power_watts",
      "Nominal power output in watts.", labels⟩
    InternalTemperatureCelsius := ⟨buildFQName namespaceStr "" "internal_temperature_celsius",
      "Internal temperature in °C.", labels⟩ }

/-- The collector instance all theorems speak about. -/
def collector : UPSCollector := NewUPSCollector

/-- The closed 13-token status flag vocabulary of Collect. -/
def upsStatus : List String :=
  ["CAL", "TRIM", "BOOST", "ONLINE", "ONBATT", "OVERLOAD", "LOWBATT",
   "REPLACEBATT", "NOBATT", "SLAVE", "SLAVEDOWN", "COMMLOST", "SHUTTING DOWN"]

/-- Substring containment on character lists: some tail of s starts with
pat. -/
def containsList (s pat : List Char) : Bool :=
  match s with
  | [] => pat.isEmpty
  | _ :: rest => pat.isPrefixOf s || containsList rest pat

/-- Model of strings.Contains: substr occurs inside s as a substring. -/
def stringsContains (s substr : String) : Bool :=
  containsList s.data substr.data

/-- Describe: the fixed ordered descriptor list sent on the describe
channel. -/
def Describe (c : UPSCollector) : List Desc :=
  [c.Info,
   c.Status,
   c.UPSLoadPercent,
   c.BatteryChargePercent,
   c.LineVolts,
   c.LineNominalVolts,
   c.OutputVolts,
   c.BatteryVolts,
   c.BatteryNominalVolts,
   c.BatteryNumberTransfersTotal,
   c.BatteryTimeLeftSeconds,
   c.BatteryTimeOnSeconds,
   c.BatteryCumulativeTimeOnSecondsTotal,
   c.LastTransferOnBatteryTimeSeconds,
   c.LastTransferOffBatteryTimeSeconds,
   c.LastSelftestTimeSeconds,
   c.NominalPowerWatts,
   c.InternalTemperatureCelsius]

/-- Collect: on fetch error, a single invalid metric on the Info descriptor
carrying the error; on success, the 13 status flag indicators, the info
sample, and the 16 numeric samples, in program order. -/
def Collect (c : UPSCollector) (fetched : Except String Status) : List Metric :=
  match fetched with
  | Except.error err => [Metric.invalid c.Info err]
  | Except.ok s =>
    (upsStatus.map (fun status =>
      Metric.sample ⟨c.Status, ValueType.gauge,
        (if stringsContains s.Status status then 1 else 0),
        [s.UPSName, s.Hostname, s.Model, status]⟩))
    ++ [Metric.sample ⟨c.Info, ValueType.gauge, 1,
          [s.UPSName, s.Hostname, s.Model]⟩,
        Metric.sample ⟨c.UPSLoadPercent, ValueType.gauge, s.LoadPercent,
          [s.UPSName, s.Hostname, s.Model]⟩,
        Metric.sample ⟨c.BatteryChargePercent, ValueType.gauge, s.BatteryChargePercent,
          [s.UPSName, s.Hostname, s.Model]⟩,
        Metric.sample ⟨c.LineVolts, ValueType.gauge, s.LineVoltage,
          [s.UPSName, s.Hostname, s.Model]⟩,
        Metric.sample ⟨c.LineNominalVolts, ValueType.gauge, s.NominalInputVoltage,
          [s.UPSName, s.Hostname, s.Model]⟩,
        Metric.sample ⟨c.OutputVolts, ValueType.gauge, s.OutputVoltage,
          [s.UPSName, s.Hostname, s.Model]⟩,
        Metric.sample ⟨c.BatteryVolts, ValueType.gauge, s.BatteryVoltage,
          [s.UPSName, s.Hostname, s.Model]⟩,
        Metric.sample ⟨c.BatteryNominalVolts, ValueType.gauge, s.NominalBatteryVoltage,
          [s.UPSName, s.Hostname, s.Model]⟩,
        Metric.sample ⟨c.BatteryNumberTransfersTotal, ValueType.counter, (s.NumberTransfers : ℚ),
          [s.UPSName, s.Hostname, s.Model]⟩,
        Metric.sample ⟨c.BatteryTimeLeftSeconds, ValueType.gauge, s.TimeLeft.Seconds,
          [s.UPSName, s.Hostname, s.Model]⟩,
        Metric.sample ⟨c.BatteryTimeOnSeconds, ValueType.gauge, s.TimeOnBattery.Seconds,
          [s.UPSName, s.Hostname, s.Model]⟩,
        Metric.sample ⟨c.BatteryCumulativeTimeOnSecondsTotal, ValueType.counter, s.CumulativeTimeOnBattery.Seconds,
          [s.UPSName, s.Hostname, s.Model]⟩,
        Metric.sample ⟨c.LastTransferOnBatteryTimeSeconds, ValueType.gauge, timestamp s.XOnBattery,
          [s.UPSName, s.Hostname, s.Model]⟩,
        Metric.sample ⟨c.LastTransferOffBatteryTimeSeconds, ValueType.gauge, timestamp s.XOffBattery,
          [s.UPSName, s.Hostname, s.Model]⟩,
        Metric.sample ⟨c.LastSelftestTimeSeconds, ValueType.gauge, timestamp s.LastSelftest,
          [s.UPSName, s.Hostname, s.Model]⟩,
        Metric.sample ⟨c.NominalPowerWatts, ValueType.gauge, (s.NominalPower : ℚ),
          [s.UPSName, s.Hostname, s.Model]⟩,
        Metric.sample ⟨c.InternalTemperatureCelsius, ValueType.gauge, s.InternalTemp,
          [s.UPSName, s.Hostname, s.Model]⟩]

/-- The descriptor a metric is attached to: its own for a sample, the
carried descriptor for an invalid metric. -/
def metricDesc : Metric → Desc
  | Metric.sample smp => smp.desc
  | Metric.invalid d _ => d

/-- The value type of a metric, when it is a sample. -/
def metricVType : Metric → Option ValueType
  | Metric.sample smp => some smp.vtype
  | Metric.invalid _ _ => none

/-- Whether a metric is a constant sample (as opposed to an invalid
metric). -/
def isSampleMetric : Metric → Bool
  | Metric.sample _ => true
  | Metric.invalid _ _ => false

/-- Whether a metric is the flag indicator sample for token t: a sample on
the status descriptor whose last label value is t. -/
def isFlagSample (t : String) : Metric → Bool
  | Metric.sample smp => smp.desc == collector.Status && smp.labelValues.getLast? == some t
  | Metric.invalid _ _ => false

/-- The flag indicator samples for token t among a list of emitted
metrics. -/
def flagSamplesFor (ms : List Metric) (t : String) : List Metric :=
  ms.filter (isFlagSample t)

/-- The values of the flag indicator samples (samples on the status
descriptor), in emission order. -/
def flagSampleValues (ms : List Metric) : List ℚ :=
  ms.filterMap (fun m => match m with
    | Metric.sample smp => if smp.desc == collector.Status then some smp.value else none
    | Metric.invalid _ _ => none)

/-- The value of the first sample attached to descriptor d, if any. -/
def valueOfDesc (ms : List Metric) (d : Desc) : Option ℚ :=
  match ms with
  | [] => none
  | Metric.sample smp :: rest => if smp.desc == d then some smp.value else valueOfDesc rest d
  | Metric.invalid _ _ :: rest => valueOfDesc rest d

/-- A concrete snapshot whose status text is exactly ONLINE, used to
instantiate universally quantified theorems. -/
def snapOnline : Status :=
  ⟨"n", "h", "m", "ONLINE", 12.5, 100, 230, 230, 230, 27, 24, 1,
   ⟨90000000000⟩, ⟨0⟩, ⟨0⟩, ⟨0, 0⟩, ⟨0, 0⟩, ⟨63782906400, 0⟩, 450, 30⟩

/-- A concrete snapshot whose status text is exactly SLAVEDOWN. -/
def snapSlavedown : Status :=
  ⟨"n", "h", "m", "SLAVEDOWN", 0, 0, 0, 0, 0, 0, 0, 0,
   ⟨0⟩, ⟨0⟩, ⟨0⟩, ⟨0, 0⟩, ⟨0, 0⟩, ⟨0, 0⟩, 0, 0⟩

/-- Summing 0/1 indicators over a list counts the elements satisfying the
predicate. -/
lemma sum_map_ite_eq_length (p : String → Bool) (l : List String) :
    ((l.map (fun u => if p u then (1 : ℚ) else 0)).sum) = ((l.filter p).length : ℚ) := by
  induction l with
  | nil => simp
  | cons a l ih =>
    by_cases h : p a
    · simp [h, ih, List.filter_cons]
      ring
    · simp [h, ih, List.filter_cons]

/-- The flag sample values of a successful collection are the 13 indicator
values in vocabulary order. -/
lemma flagSampleValues_collect (s : Status) :
    flagSampleValues (Collect collector (Except.ok s))
      = upsStatus.map (fun u => if stringsContains s.Status u then (1 : ℚ) else 0) := rfl

/-- C1: for every snapshot and each of the 13 flag tokens, Collect emits
exactly one indicator sample for that token, whose value is 1 if the status
string contains the token as a substring and 0 otherwise, and the sum of
the 13 indicator values equals the number of tokens that are substrings of
the status string. -/
theorem collect_flag_indicators_C1 (s : Status) (t : String) (ht : t ∈ upsStatus) :
    (flagSamplesFor (Collect collector (Except.ok s)) t).length = 1 ∧
    flagSamplesFor (Collect collector (Except.ok s)) t
      = [Metric.sample ⟨collector.Status, ValueType.gauge,
          (if stringsContains s.Status t then 1 else 0),
          [s.UPSName, s.Hostname, s.Model, t]⟩] ∧
    (flagSampleValues (Collect collector (Except.ok s))).sum
      = ((upsStatus.filter (fun u => stringsContains s.Status u)).length : ℚ) := by
  have hsum : (flagSampleValues (Collect collector (Except.ok s))).sum
      = ((upsStatus.filter (fun u => stringsContains s.Status u)).length : ℚ) := by
    rw [flagSampleValues_collect, sum_map_ite_eq_length]
  simp only [upsStatus, List.mem_cons, List.not_mem_nil, or_false] at ht
  rcases ht with rfl | rfl | rfl | rfl | rfl | rfl | rfl | rfl | rfl | rfl | rfl | rfl | rfl <;>
    exact ⟨rfl, rfl, hsum⟩

/-- Witness for C1 at the concrete ONLINE snapshot and token ONLINE. -/
theorem collect_flag_indicators_C1_witness :
    "ONLINE" ∈ upsStatus ∧
    ((flagSamplesFor (Collect collector (Except.ok snapOnline)) "ONLINE").length = 1 ∧
     flagSamplesFor (Collect collector (Except.ok snapOnline)) "ONLINE"
       = [Metric.sample ⟨collector.Status, ValueType.gauge,
           (if stringsContains snapOnline.Status "ONLINE" then 1 else 0),
           [snapOnline.UPSName, snapOnline.Hostname, snapOnline.Model, "ONLINE"]⟩] ∧
     (flagSampleValues (Collect collector (Except.ok snapOnline))).sum
       = ((upsStatus.filter (fun u => stringsContains snapOnline.Status u)).length : ℚ)) :=
  ⟨by decide, collect_flag_indicators_C1 snapOnline "ONLINE" (by decide)⟩

/-- C2: when the status source returns an error, Collect emits exactly one
metric, the invalid metric on the info descriptor carrying the error, and
no constant sample at all. -/
theorem collect_fetch_error_C2 (err : String) :
    Collect collector (Except.error err) = [Metric.invalid collector.Info err] ∧
    (Collect collector (Except.error err)).length = 1 ∧
    (Collect collector (Except.error err)).filter isSampleMetric = [] :=
  ⟨rfl, rfl, rfl⟩

/-- C4: the three timestamp metrics carry exactly the timestamp conversion
of their snapshot fields, and the conversion maps the zero time to 0 (never
to a negative sentinel) and a non-zero time to its Unix epoch seconds. -/
theorem collect_timestamps_C4 (s : Status) :
    valueOfDesc (Collect collector (Except.ok s)) collector.LastTransferOnBatteryTimeSeconds
      = some (timestamp s.XOnBattery) ∧
    valueOfDesc (Collect collector (Except.ok s)) collector.LastTransferOffBatteryTimeSeconds
      = some (timestamp s.XOffBattery) ∧
    valueOfDesc (Collect collector (Except.ok s)) collector.LastSelftestTimeSeconds
      = some (timestamp s.LastSelftest) ∧
    (∀ t : GoTime,
      (t.IsZero = true → timestamp t = 0 ∧ ¬ timestamp t < 0) ∧
      (t.IsZero = false → timestamp t = (t.Unix : ℚ))) := by
  refine ⟨rfl, rfl, rfl, fun t => ⟨fun h => ?_, fun h => ?_⟩⟩
  · constructor <;> simp [timestamp, h]
  · simp [timestamp, h]

/-- Witness for C4 at the concrete ONLINE snapshot, the zero time and a
non-zero time. -/
theorem collect_timestamps_C4_witness :
    valueOfDesc (Collect collector (Except.ok snapOnline)) collector.LastSelftestTimeSeconds
      = some (timestamp snapOnline.LastSelftest) ∧
    (timestamp ⟨0, 0⟩ = 0 ∧ ¬ timestamp ⟨0, 0⟩ < 0) ∧
    timestamp ⟨63782906400, 0⟩ = ((63782906400 - unixToInternal : Int) : ℚ) :=
  ⟨(collect_timestamps_C4 snapOnline).2.2.1,
   ((collect_timestamps_C4 snapOnline).2.2.2 ⟨0, 0⟩).1 rfl,
   ((collect_timestamps_C4 snapOnline).2.2.2 ⟨63782906400, 0⟩).2 rfl⟩

/-- C6: exactly two emitted metrics are counters, the transfer count and
the cumulative time on battery, and the other 28 of the 30 emitted metrics
are gauges. -/
theorem collect_counter_gauge_C6 (s : Status) :
    ((Collect collector (Except.ok s)).filter
        (fun m => metricVType m == some ValueType.counter)).map metricDesc
      = [collector.BatteryNumberTransfersTotal,
         collector.BatteryCumulativeTimeOnSecondsTotal] ∧
    ((Collect collector (Except.ok s)).filter
        (fun m => metricVType m == some ValueType.gauge)).length = 28 ∧
    (Collect collector (Except.ok s)).length = 30 :=
  ⟨rfl, rfl, rfl⟩

/-- C8: the three duration metrics carry exactly the seconds conversion of
their snapshot fields, and a 90 second duration converts to exactly 90. -/
theorem collect_durations_C8 (s : Status) :
    valueOfDesc (Collect collector (Except.ok s)) collector.BatteryTimeLeftSeconds
      = some s.TimeLeft.Seconds ∧
    valueOfDesc (Collect collector (Except.ok s)) collector.BatteryTimeOnSeconds
      = some s.TimeOnBattery.Seconds ∧
    valueOfDesc (Collect collector (Except.ok s)) collector.BatteryCumulativeTimeOnSecondsTotal
      = some s.CumulativeTimeOnBattery.Seconds ∧
    Duration.Seconds ⟨90000000000⟩ = 90 := by
  refine ⟨rfl, rfl, rfl, ?_⟩
  norm_num [Duration.Seconds]

/-- The flag samples for a token of the vocabulary form a singleton whose
value is the substring indicator for that token. -/
lemma flagSamplesFor_collect (s : Status) (t : String) (ht : t ∈ upsStatus) :
    flagSamplesFor (Collect collector (Except.ok s)) t
      = [Metric.sample ⟨collector.Status, ValueType.gauge,
          (if stringsContains s.Status t then 1 else 0),
          [s.UPSName, s.Hostname, s.Model, t]⟩] := by
  simp only [upsStatus, List.mem_cons, List.not_mem_nil, or_false] at ht
  rcases ht with rfl | rfl | rfl | rfl | rfl | rfl | rfl | rfl | rfl | rfl | rfl | rfl | rfl <;>
    rfl

/-- C3 counterexample: SLAVE and SLAVEDOWN are distinct vocabulary flags in
a substring relationship, and a snapshot whose status string is exactly
SLAVEDOWN yields indicator value 1 (not 0) for the other flag SLAVE. -/
theorem collect_flag_crosstalk_C3_counterexample :
    "SLAVE" ∈ upsStatus ∧ "SLAVEDOWN" ∈ upsStatus ∧ "SLAVE" ≠ "SLAVEDOWN" ∧
    stringsContains "SLAVEDOWN" "SLAVE" = true ∧
    snapSlavedown.Status = "SLAVEDOWN" ∧
    flagSamplesFor (Collect collector (Except.ok snapSlavedown)) "SLAVE"
      = [Metric.sample ⟨collector.Status, ValueType.gauge, 1,
          ["n", "h", "m", "SLAVE"]⟩] :=
  ⟨by decide, by decide, by decide, rfl, rfl, rfl⟩

/-- C3 amended: the SLAVE and SLAVEDOWN pair is the only substring relation
between two distinct vocabulary flags, and for a snapshot whose status
string is exactly a vocabulary flag, each indicator is 1 exactly for that
flag itself, or for SLAVE when the status is SLAVEDOWN, and 0 otherwise. -/
theorem collect_flag_crosstalk_C3_amended (s : Status) (t : String)
    (hs : s.Status ∈ upsStatus) (ht : t ∈ upsStatus) :
    flagSamplesFor (Collect collector (Except.ok s)) t
      = [Metric.sample ⟨collector.Status, ValueType.gauge,
          (if t = s.Status ∨ (t = "SLAVE" ∧ s.Status = "SLAVEDOWN") then 1 else 0),
          [s.UPSName, s.Hostname, s.Model, t]⟩] ∧
    (∀ F ∈ upsStatus, ∀ G ∈ upsStatus, F ≠ G →
      (stringsContains G F = true ↔ (F = "SLAVE" ∧ G = "SLAVEDOWN"))) := by
  refine ⟨?_, by decide⟩
  rw [flagSamplesFor_collect s t ht]
  have hval : (if stringsContains s.Status t then (1 : ℚ) else 0)
      = (if t = s.Status ∨ (t = "SLAVE" ∧ s.Status = "SLAVEDOWN") then (1 : ℚ) else 0) := by
    simp only [upsStatus, List.mem_cons, List.not_mem_nil, or_false] at hs ht
    rcases ht with rfl | rfl | rfl | rfl | rfl | rfl | rfl | rfl | rfl | rfl | rfl | rfl | rfl <;>
      rcases hs with h | h | h | h | h | h | h | h | h | h | h | h | h <;> rw [h] <;> decide
  rw [hval]

/-- Witness for the amended C3 at a snapshot whose status is exactly
SLAVEDOWN and the token SLAVE. -/
theorem collect_flag_crosstalk_C3_amended_witness :
    snapSlavedown.Status ∈ upsStatus ∧ "SLAVE" ∈ upsStatus ∧
    (flagSamplesFor (Collect collector (Except.ok snapSlavedown)) "SLAVE"
       = [Metric.sample ⟨collector.Status, ValueType.gauge,
           (if "SLAVE" = snapSlavedown.Status ∨
               ("SLAVE" = "SLAVE" ∧ snapSlavedown.Status = "SLAVEDOWN") then 1 else 0),
           [snapSlavedown.UPSName, snapSlavedown.Hostname, snapSlavedown.Model, "SLAVE"]⟩] ∧
     (∀ F ∈ upsStatus, ∀ G ∈ upsStatus, F ≠ G →
       (stringsContains G F = true ↔ (F = "SLAVE" ∧ G = "SLAVEDOWN")))) :=
  ⟨by decide, by decide,
   collect_flag_crosstalk_C3_amended snapSlavedown "SLAVE" (by decide) (by decide)⟩

/-- C5 counterexample: the status descriptor is advertised, yet a
successful collection attaches 13 samples to it, not one, so Collect does
not emit exactly one sample per advertised descriptor. -/
theorem collect_samples_per_desc_C5_counterexample :
    ¬ (∀ d ∈ Describe collector,
        ((Collect collector (Except.ok snapOnline)).filter
            (fun m => metricDesc m == d)).length = 1) := by
  intro hcl
  have h := hcl collector.Status (by decide)
  exact absurd h (by decide)

/-- C5 amended: each advertised descriptor other than the status descriptor
receives exactly one sample per successful collection, while the status
descriptor receives exactly 13 samples, one per flag token. -/
theorem collect_samples_per_desc_C5_amended (s : Status) (d : Desc)
    (hd : d ∈ Describe collector) :
    ((Collect collector (Except.ok s)).filter
        (fun m => metricDesc m == d)).length
      = if d == collector.Status then 13 else 1 := by
  simp only [Describe, List.mem_cons, List.not_mem_nil, or_false] at hd
  rcases hd with rfl | rfl | rfl | rfl | rfl | rfl | rfl | rfl | rfl | rfl | rfl | rfl | rfl |
    rfl | rfl | rfl | rfl | rfl <;> rfl

/-- Witness for the amended C5 at the info descriptor and the concrete
ONLINE snapshot. -/
theorem collect_samples_per_desc_C5_amended_witness :
    collector.Info ∈ Describe collector ∧
    ((Collect collector (Except.ok snapOnline)).filter
        (fun m => metricDesc m == collector.Info)).length
      = if collector.Info == collector.Status then 13 else 1 :=
  ⟨by decide, collect_samples_per_desc_C5_amended snapOnline collector.Info (by decide)⟩

/-- C7: every metric of a successful collection is a sample carrying
exactly the three identifying label values from the snapshot, except the
samples on the status descriptor, which carry those three plus a fourth
ranging over the 13-token vocabulary. -/
theorem collect_labels_C7 (s : Status) (m : Metric)
    (hm : m ∈ Collect collector (Except.ok s)) :
    ∃ smp, m = Metric.sample smp ∧
      ((smp.desc = collector.Status ∧
          ∃ t, t ∈ upsStatus ∧
            smp.labelValues = [s.UPSName, s.Hostname, s.Model, t]) ∨
       (smp.desc ≠ collector.Status ∧
          smp.labelValues = [s.UPSName, s.Hostname, s.Model])) := by
  simp only [Collect, List.mem_append, List.mem_map, List.mem_cons,
    List.not_mem_nil, or_false] at hm
  rcases hm with ⟨t, ht, rfl⟩ | hm
  · exact ⟨_, rfl, Or.inl ⟨rfl, t, ht, rfl⟩⟩
  · rcases hm with rfl | rfl | rfl | rfl | rfl | rfl | rfl | rfl | rfl | rfl | rfl | rfl | rfl |
      rfl | rfl | rfl | rfl <;> exact ⟨_, rfl, Or.inr ⟨of_decide_eq_false rfl, rfl⟩⟩

/-- Witness for C7 at the info sample of the concrete ONLINE snapshot. -/
theorem collect_labels_C7_witness :
    (Metric.sample ⟨collector.Info, ValueType.gauge, 1, ["n", "h", "m"]⟩
        ∈ Collect collector (Except.ok snapOnline)) ∧
    ∃ smp, Metric.sample ⟨collector.Info, ValueType.gauge, 1, ["n", "h", "m"]⟩
        = Metric.sample smp ∧
      ((smp.desc = collector.Status ∧
          ∃ t, t ∈ upsStatus ∧
            smp.labelValues
              = [snapOnline.UPSName, snapOnline.Hostname, snapOnline.Model, t]) ∨
       (smp.desc ≠ collector.Status ∧
          smp.labelValues = [snapOnline.UPSName, snapOnline.Hostname, snapOnline.Model])) :=
  ⟨by decide, collect_labels_C7 snapOnline _ (by decide)⟩

/-- C9: every metric emitted by Collect, on success or failure, is attached
to a descriptor advertised by Describe. -/
theorem collect_describe_lockstep_C9 (fetched : Except String Status) (m : Metric)
    (hm : m ∈ Collect collector fetched) :
    metricDesc m ∈ Describe collector := by
  cases fetched with
  | error err =>
    simp only [Collect, List.mem_cons, List.not_mem_nil, or_false] at hm
    subst hm
    exact of_decide_eq_true rfl
  | ok s =>
    simp only [Collect, List.mem_append, List.mem_map, List.mem_cons,
      List.not_mem_nil, or_false] at hm
    rcases hm with ⟨t, ht, rfl⟩ | hm
    · exact of_decide_eq_true rfl
    · rcases hm with rfl | rfl | rfl | rfl | rfl | rfl | rfl | rfl | rfl | rfl | rfl | rfl | rfl |
        rfl | rfl | rfl | rfl <;> exact of_decide_eq_true rfl

/-- Witness for C9 at the invalid metric of a failed fetch. -/
theorem collect_describe_lockstep_C9_witness :
    (Metric.invalid collector.Info "fetch failed"
        ∈ Collect collector (Except.error "fetch failed")) ∧
    metricDesc (Metric.invalid collector.Info "fetch failed") ∈ Describe collector :=
  ⟨by decide, collect_describe_lockstep_C9 (Except.error "fetch failed") _ (by decide)⟩

/-- C10: Collect is a deterministic function of the snapshot, and each
successful collection has the fixed shape: 30 metrics, of which 13 are flag
indicator samples on the status descriptor, exactly one is the info sample
with constant value 1, and the remaining 16 are the numeric samples. -/
theorem collect_deterministic_C10 (s₁ s₂ : Status) (h : s₁ = s₂) :
    Collect collector (Except.ok s₁) = Collect collector (Except.ok s₂) ∧
    (Collect collector (Except.ok s₁)).length = 30 ∧
    ((Collect collector (Except.ok s₁)).filter
        (fun m => metricDesc m == collector.Status)).length = 13 ∧
    (Collect collector (Except.ok s₁)).filter
        (fun m => metricDesc m == collector.Info)
      = [Metric.sample ⟨collector.Info, ValueType.gauge, 1,
          [s₁.UPSName, s₁.Hostname, s₁.Model]⟩] ∧
    ((Collect collector (Except.ok s₁)).filter
        (fun m => !(metricDesc m == collector.Status)
          && !(metricDesc m == collector.Info))).length = 16 :=
  ⟨by rw [h], rfl, rfl, rfl, rfl⟩

/-- Witness for C10 at two equal concrete ONLINE snapshots. -/
theorem collect_deterministic_C10_witness :
    snapOnline = snapOnline ∧
    (Collect collector (Except.ok snapOnline) = Collect collector (Except.ok snapOnline) ∧
     (Collect collector (Except.ok snapOnline)).length = 30 ∧
     ((Collect collector (Except.ok snapOnline)).filter
         (fun m => metricDesc m == collector.Status)).length = 13 ∧
     (Collect collector (Except.ok snapOnline)).filter
         (fun m => metricDesc m == collector.Info)
       = [Metric.sample ⟨collector.Info, ValueType.gauge, 1,
           [snapOnline.UPSName, snapOnline.Hostname, snapOnline.Model]⟩] ∧
     ((Collect collector (Except.ok snapOnline)).filter
         (fun m => !(metricDesc m == collector.Status)
           && !(metricDesc m == collector.Info))).length = 16) :=
  ⟨rfl, collect_deterministic_C10 snapOnline snapOnline rfl⟩

end Apcupsd
